import Mathlib

/-!
Verification of the wait-time dashboard core (`src/main.py`).

The repository's only original logic is two pure helpers:

* `floor_to_30min_hhmm` — maps an "HH:MM" time-of-day string onto the
  30-minute bucket grid, with a best-effort truncation fallback on
  parse failure (the Python `try`/`except` around `split`/`int`);
* `classify_wait` — maps a live wait plus historical statistics
  (average, 25th and 75th percentile) to a (label, icon) pair, with a
  missing-data sentinel check before the ordered numeric guards.

Numeric wait values are modelled as rationals (`ℚ`); a possibly-missing
value (Python `None`/`NaN`, detected by `pd.isna`) is `Option ℚ` with
`none` for the missing sentinel.  Strings are Lean `String`s; Python's
string primitives are modelled by structural recursion on the string's
character list: `s[:5]` is `pyTake 5`, `s.split(":")` is `pySplit ':'`
(splits on every occurrence, keeps empty pieces, `"" → [""]`), and
`int(...)` is `pyInt?` (decimal digits with an optional leading sign;
Python's tolerance for surrounding whitespace and underscores is not
modelled — the program only feeds `int` plain `strftime`-produced digit
strings).
-/

namespace ParksHack

/-- Python's `s.split(c)` on the character list: split at every
occurrence of `c`, keeping empty pieces; the empty list yields `[[]]`
(Python: `"".split(":") == [""]`). -/
def pySplitChars (c : Char) : List Char → List (List Char)
  | [] => [[]]
  | x :: xs =>
    if x = c then [] :: pySplitChars c xs
    else
      match pySplitChars c xs with
      | r :: rs => (x :: r) :: rs
      | [] => [[x]]

/-- Python's `s.split(c)` for a one-character separator. -/
def pySplit (c : Char) (s : String) : List String :=
  (pySplitChars c s.data).map String.mk

/-- Decimal value of an all-digit, non-empty character list; `none`
otherwise. -/
def natOfDigits (ds : List Char) : Option Nat :=
  if ds = [] then none
  else if ds.all Char.isDigit then
    some (ds.foldl (fun acc c => 10 * acc + (c.toNat - 48)) 0)
  else none

/-- Python's `int(s)`: an optional leading `-` or `+` sign followed by
decimal digits; raises (here: `none`) on anything else. -/
def pyInt? (s : String) : Option Int :=
  match s.data with
  | '-' :: ds => (natOfDigits ds).map fun n => -(n : Int)
  | '+' :: ds => (natOfDigits ds).map fun n => (n : Int)
  | ds => (natOfDigits ds).map fun n => (n : Int)

/-- Python's `s[:n]`: the first `n` characters (all of `s` when it is
shorter). -/
def pyTake (n : Nat) (s : String) : String :=
  String.mk (s.data.take n)

/-- Python's `f"{n:02d}"`: decimal rendering of `n` zero-padded to a
minimum total width of 2 (a minus sign counts towards the width). -/
def pad2 (n : Int) : String :=
  if n < 0 then "-" ++ Nat.repr (-n).toNat
  else
    let s := Nat.repr n.toNat
    if s.length < 2 then "0" ++ s else s

/-- The parsing step of `floor_to_30min_hhmm`'s `try` block:
`h, m = hhmm.split(":")` followed by `int(h)` and `int(m)`.
Returns `none` exactly when the Python code would raise (wrong number of
colon-separated parts, or a component that is not an integer literal). -/
def parseHHMM (hhmm : String) : Option (Int × Int) :=
  match pySplit ':' hhmm with
  | [hs, ms] =>
    match pyInt? hs, pyInt? ms with
    | some h, some m => some (h, m)
    | _, _ => none
  | _ => none

/-- `floor_to_30min_hhmm` from `src/main.py`: parse "HH:MM", floor the
minute to the half-hour grid (`0` if `m < 30` else `30`), and re-format
with `f"{h:02d}:{m_bucket:02d}"`; on any parse failure return
`hhmm[:5]`. -/
def floor_to_30min_hhmm (hhmm : String) : String :=
  match parseHHMM hhmm with
  | some (h, m) =>
    let m_bucket : Int := if m < 30 then 0 else 30
    pad2 h ++ ":" ++ pad2 m_bucket
  | none => pyTake 5 hhmm

/-- `classify_wait` from `src/main.py`.  The Python default `tol=2` is
made an explicit argument here; every call site in the app uses the
default.  `none` models a `pd.isna` input (absent / `NaN`). -/
def classify_wait (wait_now avg p25 p75 : Option ℚ) (tol : ℚ) :
    String × String :=
  match wait_now, avg, p25, p75 with
  | some w, some a, some q25, some q75 =>
    if w > q75 then ("Muito ruim", "🔴")
    else if w > a then ("Ruim", "🟠")
    else if |w - a| ≤ tol then ("Médio", "🟡")
    else if w > q25 then ("Bom", "🟢")
    else ("Muito bom", "🟢🟢")
  | _, _, _, _ => ("Sem dados", "⚪")

/-- The canonical "HH:MM" rendering of an (hour, minute) pair, as the
app produces it with `strftime("%H:%M")`. -/
def mkHHMM (h m : Nat) : String :=
  pad2 (h : Int) ++ ":" ++ pad2 (m : Int)

/-- Severity rank of a classification tier: "Muito bom" (very good) is
0 and "Muito ruim" (very bad) is 4. -/
def tierSeverity (t : String × String) : Nat :=
  if t.1 = "Muito ruim" then 4
  else if t.1 = "Ruim" then 3
  else if t.1 = "Médio" then 2
  else if t.1 = "Bom" then 1
  else 0

/-- The six fixed (label, icon) pairs the classifier can return. -/
def allTiers : List (String × String) :=
  [("Sem dados", "⚪"), ("Muito ruim", "🔴"), ("Ruim", "🟠"),
   ("Médio", "🟡"), ("Bom", "🟢"), ("Muito bom", "🟢🟢")]

/-- The classifier's ordered guard list, as (boolean predicate, tier)
pairs in source order; the fifth, default tier is passed separately to
`firstMatch`. -/
def classifyRules (a q25 q75 tol : ℚ) :
    List ((ℚ → Bool) × (String × String)) :=
  [(fun w => decide (w > q75), ("Muito ruim", "🔴")),
   (fun w => decide (w > a), ("Ruim", "🟠")),
   (fun w => decide (|w - a| ≤ tol), ("Médio", "🟡")),
   (fun w => decide (w > q25), ("Bom", "🟢"))]

/-- Language-neutral ordered dispatch: evaluate guards top to bottom,
first match wins, fall through to the default. -/
def firstMatch (rs : List ((ℚ → Bool) × (String × String)))
    (dflt : String × String) (w : ℚ) : String × String :=
  match rs with
  | [] => dflt
  | (p, t) :: rest => if p w then t else firstMatch rest dflt w

set_option maxHeartbeats 2000000 in
/-- On the whole valid time-of-day grid, the bucketizer parses back the
hour and floors the minute to the half-hour grid. -/
lemma floor_mkHHMM_all : ∀ h < 24, ∀ m < 60,
    floor_to_30min_hhmm (mkHHMM h m)
      = mkHHMM h (if m < 30 then 0 else 30) := by decide

/-- With all four inputs present, the classifier's guards are the
linear conditions of the source with the absolute value eliminated: in
the third guard `w ≤ a` already holds, so `|w - a| ≤ tol ↔ a - w ≤ tol`. -/
lemma classify_wait_present (w a q25 q75 tol : ℚ) :
    classify_wait (some w) (some a) (some q25) (some q75) tol =
      if q75 < w then ("Muito ruim", "🔴")
      else if a < w then ("Ruim", "🟠")
      else if a - w ≤ tol then ("Médio", "🟡")
      else if q25 < w then ("Bom", "🟢")
      else ("Muito bom", "🟢🟢") := by
  by_cases h1 : q75 < w
  · simp [classify_wait, h1]
  · by_cases h2 : a < w
    · simp [classify_wait, h1, h2]
    · have habs : |w - a| = a - w := by
        rw [abs_sub_comm]
        exact abs_of_nonneg (by linarith)
      simp [classify_wait, h1, h2, habs]

/-- C1 (counterexample): `classify(51, 50, 20, 60, 2)` does not return
the "medium" tier: the rule `live_wait > avg` (51 > 50) fires before the
tolerance check is reached. -/
theorem classify_example_51_cex :
    classify_wait (some 51) (some 50) (some 20) (some 60) 2
      ≠ ("Médio", "🟡") := by decide

/-- C1 (amended): `classify(51, 50, 20, 60, 2)` returns the "bad" tier
("Ruim"): although `|51 - 50| = 1 ≤ tolerance = 2`, the earlier guard
`live_wait > avg` masks the tolerance-band guard. -/
theorem classify_example_51_amended :
    classify_wait (some 51) (some 50) (some 20) (some 60) 2
      = ("Ruim", "🟠") := by decide

/-- C2 (counterexample): a `live_wait` inside the tolerance band around
`avg` is not always classified "medium": 59 is within tolerance 2 of
avg = 58 yet is classified "Ruim" because `live_wait > avg` fires
first. -/
theorem classify_band_above_avg_cex :
    |(59 : ℚ) - 58| ≤ 2 ∧
      classify_wait (some 59) (some 58) (some 20) (some 60) 2
        ≠ ("Médio", "🟡") :=
  ⟨by rw [abs_le]; constructor <;> norm_num, by decide⟩

/-- C2 (amended): with avg/p25/p75/tolerance fixed and all inputs
present, tier severity is non-decreasing in `live_wait`, with no
exception; a `live_wait` inside the tolerance band is classified
"medium" exactly when it is also `≤ avg` and `≤ p75` (the earlier
guards mask the band above `avg` or `p75`). -/
theorem classify_severity_monotone :
    (∀ w1 w2 a q25 q75 tol : ℚ, w1 ≤ w2 →
      tierSeverity (classify_wait (some w1) (some a) (some q25) (some q75) tol)
        ≤ tierSeverity (classify_wait (some w2) (some a) (some q25) (some q75) tol)) ∧
    (∀ w a q25 q75 tol : ℚ, |w - a| ≤ tol →
      (classify_wait (some w) (some a) (some q25) (some q75) tol = ("Médio", "🟡")
        ↔ w ≤ a ∧ w ≤ q75)) := by
  constructor
  · intro w1 w2 a q25 q75 tol h12
    rw [classify_wait_present, classify_wait_present]
    split_ifs <;> first | decide | linarith
  · intro w a q25 q75 tol hband
    obtain ⟨hb1, hb2⟩ := abs_le.mp hband
    rw [classify_wait_present]
    constructor
    · intro h
      split_ifs at h with h1 h2 h3
      · exact absurd h (by decide)
      · exact absurd h (by decide)
      · exact ⟨by linarith, by linarith⟩
      · linarith
      · linarith
    · rintro ⟨hwa, hw75⟩
      rw [if_neg (by simpa using hw75), if_neg (by simpa using hwa),
        if_pos (by linarith)]

/-- C2 witness: the amended monotonicity and band characterization at
concrete inputs. -/
theorem classify_severity_monotone_witness :
    tierSeverity (classify_wait (some 30) (some 50) (some 20) (some 60) 2)
      ≤ tierSeverity (classify_wait (some 80) (some 50) (some 20) (some 60) 2) ∧
    (classify_wait (some 49) (some 50) (some 20) (some 60) 2 = ("Médio", "🟡")
      ↔ (49 : ℚ) ≤ 50 ∧ (49 : ℚ) ≤ 60) :=
  ⟨classify_severity_monotone.1 30 80 50 20 60 2 (by norm_num),
   classify_severity_monotone.2 49 50 20 60 2 (by norm_num)⟩

/-- C3: with all four inputs present, the classifier is exactly ordered
first-match dispatch over the four guards in source order with
"Muito bom" as the default; and when no guard fires the input is indeed
`≤ p25`. -/
theorem classify_firstMatch_refines :
    (∀ w a q25 q75 tol : ℚ,
      classify_wait (some w) (some a) (some q25) (some q75) tol
        = firstMatch (classifyRules a q25 q75 tol) ("Muito bom", "🟢🟢") w) ∧
    (∀ w a q25 q75 tol : ℚ,
      (∀ r ∈ classifyRules a q25 q75 tol, r.1 w = false) → w ≤ q25) := by
  constructor
  · intro w a q25 q75 tol
    simp [classify_wait, classifyRules, firstMatch]
  · intro w a q25 q75 tol hall
    have h4 : decide (w > q25) = false :=
      hall (fun w => decide (w > q25), ("Bom", "🟢")) (by simp [classifyRules])
    exact not_lt.mp (of_decide_eq_false h4)

/-- C3 witness: the refinement at a concrete input, and the default
case implies `≤ p25` at a concrete input where no guard fires. -/
theorem classify_firstMatch_refines_witness :
    classify_wait (some 80) (some 50) (some 20) (some 60) 2
      = firstMatch (classifyRules 50 20 60 2) ("Muito bom", "🟢🟢") 80 ∧
    (10 : ℚ) ≤ 20 :=
  ⟨classify_firstMatch_refines.1 80 50 20 60 2,
   classify_firstMatch_refines.2 10 50 20 60 2 (by
     simp [classifyRules, abs_le]
     norm_num)⟩

/-- C4: if any of the four numeric inputs is missing, the classifier
returns the fixed ("Sem dados", white-circle) pair regardless of the
other inputs; the check precedes every numeric comparison. -/
theorem classify_missing_no_data (wait_now avg p25 p75 : Option ℚ) (tol : ℚ)
    (h : wait_now = none ∨ avg = none ∨ p25 = none ∨ p75 = none) :
    classify_wait wait_now avg p25 p75 tol = ("Sem dados", "⚪") := by
  cases wait_now <;> cases avg <;> cases p25 <;> cases p75 <;>
    simp_all [classify_wait]

/-- C4 witness: the missing-data rule at a concrete input. -/
theorem classify_missing_no_data_witness :
    classify_wait none (some 50) (some 20) (some 60) 2
      = ("Sem dados", "⚪") :=
  classify_missing_no_data none (some 50) (some 20) (some 60) 2 (Or.inl rfl)

/-- C5: on every valid (hour, minute) with hour ≤ 23 and minute ≤ 59,
the bucketizer returns the same hour with minute 0 when the input
minute is below 30 and minute 30 otherwise, zero-padded and
colon-separated; including the spec's four examples. -/
theorem floor_valid_bucket :
    (∀ h m : Nat, h ≤ 23 → m ≤ 59 →
      floor_to_30min_hhmm (mkHHMM h m)
        = mkHHMM h (if m < 30 then 0 else 30)) ∧
    floor_to_30min_hhmm "11:27" = "11:00" ∧
    floor_to_30min_hhmm "11:31" = "11:30" ∧
    floor_to_30min_hhmm "23:59" = "23:30" ∧
    floor_to_30min_hhmm "00:00" = "00:00" := by
  refine ⟨?_, by decide, by decide, by decide, by decide⟩
  intro h m hh hm
  exact floor_mkHHMM_all h (by omega) m (by omega)

/-- C5 witness: the valid-domain bucketing rule at hour 11, minute 27. -/
theorem floor_valid_bucket_witness :
    floor_to_30min_hhmm (mkHHMM 11 27)
      = mkHHMM 11 (if 27 < 30 then 0 else 30) :=
  floor_valid_bucket.1 11 27 (by decide) (by decide)

/-- C6: both core functions are total: whenever parsing fails the
bucketizer returns the input's first five characters rather than
failing, and the classifier always returns one of the six fixed
(label, icon) pairs. -/
theorem core_total_fallback :
    (∀ s : String, parseHHMM s = none → floor_to_30min_hhmm s = pyTake 5 s) ∧
    (∀ (wait_now avg p25 p75 : Option ℚ) (tol : ℚ),
      classify_wait wait_now avg p25 p75 tol ∈ allTiers) := by
  constructor
  · intro s hs
    simp [floor_to_30min_hhmm, hs]
  · intro wait_now avg p25 p75 tol
    cases wait_now <;> cases avg <;> cases p25 <;> cases p75 <;>
      first
        | (rw [classify_wait_present]; split_ifs <;> simp [allTiers])
        | simp [classify_wait, allTiers]

/-- C6 witness: totality at a concrete unparsable string and a concrete
classifier input. -/
theorem core_total_fallback_witness :
    floor_to_30min_hhmm "11:47:00" = pyTake 5 "11:47:00" ∧
    classify_wait (some 80) (some 50) (some 20) (some 60) 2 ∈ allTiers :=
  ⟨core_total_fallback.1 "11:47:00" (by decide),
   core_total_fallback.2 (some 80) (some 50) (some 20) (some 60) 2⟩

/-- C7: the bucketizer is idempotent on the valid domain: applying it
twice to a valid "HH:MM" string equals applying it once. -/
theorem floor_idempotent_valid (h m : Nat) (hh : h ≤ 23) (hm : m ≤ 59) :
    floor_to_30min_hhmm (floor_to_30min_hhmm (mkHHMM h m))
      = floor_to_30min_hhmm (mkHHMM h m) := by
  have k1 := floor_mkHHMM_all h (by omega) m (by omega)
  have k2 := floor_mkHHMM_all h (by omega) (if m < 30 then 0 else 30)
    (by split <;> omega)
  rw [k1, k2]
  congr 1
  split <;> norm_num

/-- C7 witness: idempotence at "11:27". -/
theorem floor_idempotent_valid_witness :
    floor_to_30min_hhmm (floor_to_30min_hhmm (mkHHMM 11 27))
      = floor_to_30min_hhmm (mkHHMM 11 27) :=
  floor_idempotent_valid 11 27 (by decide) (by decide)

/-- C8: the classifier is a deterministic function of exactly its five
arguments: two invocations with equal inputs produce equal outputs.
(The source function reads no global state and performs no I/O, so the
embedding as a pure function is faithful.) -/
theorem classify_deterministic
    (w w' a a' p25 p25' p75 p75' : Option ℚ) (tol tol' : ℚ)
    (hw : w = w') (ha : a = a') (hp : p25 = p25') (hq : p75 = p75')
    (ht : tol = tol') :
    classify_wait w a p25 p75 tol = classify_wait w' a' p25' p75' tol' := by
  subst hw ha hp hq ht
  rfl

/-- C8 witness: determinism at a concrete input. -/
theorem classify_deterministic_witness :
    classify_wait (some 51) (some 50) (some 20) (some 60) 2
      = classify_wait (some 51) (some 50) (some 20) (some 60) 2 :=
  classify_deterministic (some 51) (some 51) (some 50) (some 50)
    (some 20) (some 20) (some 60) (some 60) 2 2 rfl rfl rfl rfl rfl

/-- C9: the bucketizer performs no range validation: whenever the input
splits into exactly two integer-parsable parts the bucketing rule is
applied even out of range (in particular "25:70" gives "25:30"), and
the 5-character truncation fallback is taken exactly when the parse
fails. -/
theorem floor_no_range_validation :
    (∀ (s : String) (h m : Int), parseHHMM s = some (h, m) →
      floor_to_30min_hhmm s
        = pad2 h ++ ":" ++ pad2 (if m < 30 then 0 else 30)) ∧
    floor_to_30min_hhmm "25:70" = "25:30" ∧
    (∀ s : String, parseHHMM s = none → floor_to_30min_hhmm s = pyTake 5 s) := by
  refine ⟨?_, by decide, ?_⟩
  · intro s h m hs
    simp [floor_to_30min_hhmm, hs]
  · intro s hs
    simp [floor_to_30min_hhmm, hs]

/-- C9 witness: bucketing of the out-of-range "25:70" and the fallback
on a three-part string. -/
theorem floor_no_range_validation_witness :
    floor_to_30min_hhmm "25:70"
      = pad2 25 ++ ":" ++ pad2 (if (70 : Int) < 30 then 0 else 30) ∧
    floor_to_30min_hhmm "1:2:3" = pyTake 5 "1:2:3" :=
  ⟨floor_no_range_validation.1 "25:70" 25 70 (by decide),
   floor_no_range_validation.2.2 "1:2:3" (by decide)⟩

/-- C10: an input with a seconds field takes the fallback: the two-way
split of "11:47:00" fails, the first five characters "11:47" are
returned un-bucketed (minute 47 is not on the {0, 30} grid), and the
function is not idempotent there since re-applying it yields "11:30". -/
theorem floor_seconds_fallback_not_idempotent :
    floor_to_30min_hhmm "11:47:00" = "11:47" ∧
    floor_to_30min_hhmm "11:47" = "11:30" ∧
    floor_to_30min_hhmm (floor_to_30min_hhmm "11:47:00")
      ≠ floor_to_30min_hhmm "11:47:00" :=
  ⟨by decide, by decide, by decide⟩

end ParksHack
